import Mathlib

/-!
Shallow embedding of the educational progress tracker (src/edtech_tracker.py).

The SQLite database (tables users, progress, audit_logs) is modelled as a
record of lists of rows together with counters for the autoincrement primary
keys and a logical clock standing for CURRENT_TIMESTAMP, which the store
assigns at write time.  Each database-touching operation of the program
becomes a pure function from database state to database state.

The external password hashing library (passlib pbkdf2_sha256) is modelled as
an ideal salted hash: hashing keeps the salt and the password as an opaque
pair, and verification succeeds exactly on the original password.
-/

/-- Model of a pbkdf2_sha256 hash value: an opaque pair of the random salt
and the hashed password.  Idealised: verification succeeds exactly on the
password that was hashed (no collisions). -/
structure PHash where
  salt : Nat
  pw : String
deriving DecidableEq

def pbkdf2_sha256_hash (salt : Nat) (password : String) : PHash :=
  ⟨salt, password⟩

def pbkdf2_sha256_verify (password : String) (h : PHash) : Bool :=
  decide (password = h.pw)

/-- Row of the users table (id, username UNIQUE, password hash, role,
created_at). -/
structure UserRow where
  id : Nat
  username : String
  password : PHash
  role : String
  created_at : Nat
deriving DecidableEq

/-- Row of the progress table (id, user_id, subject, chapter_name,
component, status, updated_at). -/
structure ProgressRow where
  id : Nat
  user_id : Nat
  subject : String
  chapter_name : String
  component : String
  status : String
  updated_at : Nat
deriving DecidableEq

/-- Row of the audit_logs table (id, user_id, action, details, timestamp). -/
structure AuditRow where
  id : Nat
  user_id : Nat
  action : String
  details : String
  timestamp : Nat
deriving DecidableEq

/-- The whole database file edtech.db. -/
structure DB where
  users : List UserRow
  progress : List ProgressRow
  audit_logs : List AuditRow
  nextUserId : Nat
  nextProgressId : Nat
  nextAuditId : Nat
  clock : Nat
deriving DecidableEq

/-- A freshly created database file: three empty tables. -/
def emptyDB : DB := ⟨[], [], [], 1, 1, 1, 0⟩

def DEFAULT_ADMIN_USER : String := "admin"

def DEFAULT_ADMIN_PASS : String := "admin123"

/-- The static catalog DEFAULT_SUBJECTS: subject to its list of chapters. -/
def DEFAULT_SUBJECTS : List (String × List String) :=
  [("Mathématiques", ["Algèbre Linéaire", "Analyse Réelle", "Probabilités"]),
   ("Physique", ["Mécanique du Point", "Thermodynamique", "Électromagnétisme"]),
   ("Informatique", ["Python Intro", "Structures de Données", "Algorithmes"])]

/-- init_db, seeding part: after creating the tables (schema-only, not
modelled), it counts the users table and inserts the default admin account
exactly when the count is zero. -/
def init_db (db : DB) (salt : Nat) : DB :=
  if db.users.length = 0 then
    { db with
      users := db.users ++ [⟨db.nextUserId, DEFAULT_ADMIN_USER,
        pbkdf2_sha256_hash salt DEFAULT_ADMIN_PASS, "admin", db.clock⟩],
      nextUserId := db.nextUserId + 1,
      clock := db.clock + 1 }
  else db

/-- Connection-level events performed by run_query, in order.  raiseExc
marks a Python exception propagating out of the function. -/
inductive DbEvent where
  | connect
  | execute
  | fetchall
  | commit
  | close
  | raiseExc
deriving DecidableEq

/-- Control flow of run_query at the connection level.  execRaises tells
whether c.execute raises (for example sqlite3.IntegrityError on a duplicate
username); fetch mirrors the fetch parameter.  The body has no try/finally
and no with-block, so an exception from execute propagates before any
conn.close() is reached. -/
def run_query_events (execRaises : Bool) (fetch : Bool) : List DbEvent :=
  [DbEvent.connect] ++
  (if execRaises then [DbEvent.execute, DbEvent.raiseExc]
   else if fetch then [DbEvent.execute, DbEvent.fetchall, DbEvent.close]
   else [DbEvent.execute, DbEvent.commit, DbEvent.close])

/-- log_audit: INSERT INTO audit_logs (user_id, action, details). -/
def log_audit (db : DB) (user_id : Nat) (action details : String) : DB :=
  { db with
    audit_logs := db.audit_logs ++
      [⟨db.nextAuditId, user_id, action, details, db.clock⟩],
    nextAuditId := db.nextAuditId + 1,
    clock := db.clock + 1 }

/-- The record login_user returns on success: id, username, role. -/
structure AuthUser where
  id : Nat
  username : String
  role : String
deriving DecidableEq

/-- login_user: SELECT id, username, password, role FROM users WHERE
username = ?; on a nonempty result take the first row, verify the password
against the stored hash, and return the user record; otherwise None. -/
def login_user (db : DB) (username password : String) : Option AuthUser :=
  match db.users.filter (fun u => decide (u.username = username)) with
  | [] => none
  | u :: _ =>
    if pbkdf2_sha256_verify password u.password then
      some ⟨u.id, u.username, u.role⟩
    else none

/-- create_user: hash the password, INSERT INTO users; the UNIQUE
constraint on username makes the insert raise sqlite3.IntegrityError when a
row with that username exists, which the function catches and turns into
False with no write. -/
def create_user (db : DB) (salt : Nat) (username password role : String) :
    Bool × DB :=
  if db.users.any (fun u => decide (u.username = username)) then
    (false, db)
  else
    (true, { db with
      users := db.users ++ [⟨db.nextUserId, username,
        pbkdf2_sha256_hash salt password, role, db.clock⟩],
      nextUserId := db.nextUserId + 1,
      clock := db.clock + 1 })

/-- Number of user rows carrying a given username. -/
def username_count (db : DB) (username : String) : Nat :=
  (db.users.filter (fun u => decide (u.username = username))).length

def STATUS_OPTS : List String := ["Non fait", "En cours", "Fait"]

/-- The WHERE clause used by the progress queries of view_subjects. -/
def matches_key (uid : Nat) (subj chap comp : String) (r : ProgressRow) :
    Bool :=
  decide (r.user_id = uid ∧ r.subject = subj ∧ r.chapter_name = chap ∧
    r.component = comp)

/-- SELECT rows FROM progress WHERE user_id=? AND subject=? AND
chapter_name=? AND component=?. -/
def progress_rows_for (db : DB) (uid : Nat) (subj chap comp : String) :
    List ProgressRow :=
  db.progress.filter (matches_key uid subj chap comp)

/-- The status read of view_subjects: res[0][0] if res else the default. -/
def current_status (db : DB) (uid : Nat) (subj chap comp : String) :
    String :=
  match progress_rows_for db uid subj chap comp with
  | [] => "Non fait"
  | r :: _ => r.status

/-- The selectbox index of view_subjects: STATUS_OPTS.index(s) when s is a
recognised status, 0 otherwise. -/
def current_index (s : String) : Nat :=
  if s ∈ STATUS_OPTS then STATUS_OPTS.indexOf s else 0

/-- The status-update block of view_subjects (lines 291 to 310): when the
new value differs from the stored-or-default status, upsert the progress
row (UPDATE by the id of the first existing row, else INSERT) and append
one audit entry; when it is equal, do nothing. -/
def set_status (db : DB) (uid : Nat) (subj chap comp new_status : String) :
    DB :=
  if new_status ≠ current_status db uid subj chap comp then
    let db1 :=
      match progress_rows_for db uid subj chap comp with
      | r :: _ =>
        { db with
          progress := db.progress.map (fun p =>
            if p.id = r.id then
              { p with status := new_status, updated_at := db.clock }
            else p),
          clock := db.clock + 1 }
      | [] =>
        { db with
          progress := db.progress ++
            [⟨db.nextProgressId, uid, subj, chap, comp, new_status,
              db.clock⟩],
          nextProgressId := db.nextProgressId + 1,
          clock := db.clock + 1 }
    log_audit db1 uid ("UPDATE_PROGRESS")
      (subj ++ " > " ++ chap ++ " > " ++ comp ++ " : " ++ new_status)
  else db

/-- Dashboard count: SELECT count(*) FROM progress WHERE user_id = ? AND
status = the completed status. -/
def completed_tasks (db : DB) (uid : Nat) : Nat :=
  (db.progress.filter (fun r =>
    decide (r.user_id = uid ∧ r.status = "Fait"))).length

/-- Total possible actions: sum over subjects of chapters times 3. -/
def total_ops : Nat :=
  (DEFAULT_SUBJECTS.map (fun p => p.2.length * 3)).sum

/-- Line 215 of the dashboard: (completed / total) * 100 if total > 0 else
0, over the rationals. -/
def rate_formula (completed total : Nat) : ℚ :=
  if total > 0 then ((completed : ℚ) / (total : ℚ)) * 100 else 0

/-- The completion rate shown on the dashboard for one user. -/
def global_rate (db : DB) (uid : Nat) : ℚ :=
  rate_formula (completed_tasks db uid) total_ops

/-- A database holding one progress row, obtained by one status update. -/
def oneFaitDB : DB :=
  set_status emptyDB 1 ("Mathématiques") ("Algèbre Linéaire") ("Cours") ("Fait")

/-- A database whose progress table holds nine completed rows of one user. -/
def nineFaitDB : DB :=
  { emptyDB with
    progress := (List.range 9).map (fun i =>
      ⟨i + 1, 1, "Mathématiques", toString i, "Cours", "Fait", 0⟩),
    nextProgressId := 10 }

/-- The user row written by a successful create_user call. -/
def created_row (db : DB) (salt : Nat) (u p role : String) : UserRow :=
  ⟨db.nextUserId, u, pbkdf2_sha256_hash salt p, role, db.clock⟩

/-- The database produced by a successful create_user call. -/
def created_db (db : DB) (salt : Nat) (u p role : String) : DB :=
  { db with
    users := db.users ++ [created_row db salt u p role],
    nextUserId := db.nextUserId + 1,
    clock := db.clock + 1 }

/-- A database holding one user alice, for concrete checks. -/
def aliceDB : DB :=
  (create_user emptyDB 3 ("alice") ("secret") ("student")).2

/-! ### Helper lemmas -/

theorem filter_map_comm {α : Type} (g : α → α) (p : α → Bool)
    (hp : ∀ x, p (g x) = p x) (l : List α) :
    (l.map g).filter p = (l.filter p).map g := by
  induction l with
  | nil => rfl
  | cons x xs ih =>
    simp only [List.map_cons, List.filter_cons, hp x]
    cases hx : p x <;> simp [hx, ih]

theorem set_status_noop (db : DB) (uid : Nat) (subj chap comp v : String)
    (hv : v = current_status db uid subj chap comp) :
    set_status db uid subj chap comp v = db := by
  simp [set_status, hv]

theorem set_status_insert_eq (db : DB) (uid : Nat) (subj chap comp v : String)
    (h0 : progress_rows_for db uid subj chap comp = [])
    (hv : v ≠ "Non fait") :
    set_status db uid subj chap comp v =
      { db with
        progress := db.progress ++
          [⟨db.nextProgressId, uid, subj, chap, comp, v, db.clock⟩],
        audit_logs := db.audit_logs ++
          [⟨db.nextAuditId, uid, "UPDATE_PROGRESS",
            subj ++ " > " ++ chap ++ " > " ++ comp ++ " : " ++ v,
            db.clock + 1⟩],
        nextProgressId := db.nextProgressId + 1,
        nextAuditId := db.nextAuditId + 1,
        clock := db.clock + 2 } := by
  have hcur : current_status db uid subj chap comp = "Non fait" := by
    simp [current_status, h0]
  rw [set_status, if_pos (by rw [hcur]; exact hv)]
  simp only [h0, log_audit]

theorem set_status_update_eq (db : DB) (uid : Nat) (subj chap comp v : String)
    (r : ProgressRow) (rest : List ProgressRow)
    (h0 : progress_rows_for db uid subj chap comp = r :: rest)
    (hv : v ≠ r.status) :
    set_status db uid subj chap comp v =
      { db with
        progress := db.progress.map (fun p =>
          if p.id = r.id then
            { p with status := v, updated_at := db.clock }
          else p),
        audit_logs := db.audit_logs ++
          [⟨db.nextAuditId, uid, "UPDATE_PROGRESS",
            subj ++ " > " ++ chap ++ " > " ++ comp ++ " : " ++ v,
            db.clock + 1⟩],
        nextAuditId := db.nextAuditId + 1,
        clock := db.clock + 2 } := by
  have hcur : current_status db uid subj chap comp = r.status := by
    simp [current_status, h0]
  rw [set_status, if_pos (by rw [hcur]; exact hv)]
  simp only [h0, log_audit]

theorem matches_key_patch (uid : Nat) (subj chap comp : String)
    (rid : Nat) (v : String) (t : Nat) (x : ProgressRow) :
    matches_key uid subj chap comp
      (if x.id = rid then { x with status := v, updated_at := t } else x) =
    matches_key uid subj chap comp x := by
  cases hx : decide (x.id = rid) <;> simp_all [matches_key]

theorem rows_for_insert (db : DB) (uid : Nat) (subj chap comp v : String)
    (h0 : progress_rows_for db uid subj chap comp = [])
    (hv : v ≠ "Non fait") :
    progress_rows_for (set_status db uid subj chap comp v) uid subj chap comp =
      [⟨db.nextProgressId, uid, subj, chap, comp, v, db.clock⟩] := by
  rw [set_status_insert_eq db uid subj chap comp v h0 hv]
  simp only [progress_rows_for] at h0 ⊢
  rw [List.filter_append, h0]
  simp [matches_key]

theorem rows_for_update (db : DB) (uid : Nat) (subj chap comp v : String)
    (r : ProgressRow) (rest : List ProgressRow)
    (h0 : progress_rows_for db uid subj chap comp = r :: rest)
    (hv : v ≠ r.status) :
    progress_rows_for (set_status db uid subj chap comp v) uid subj chap comp =
      (r :: rest).map (fun p =>
        if p.id = r.id then { p with status := v, updated_at := db.clock }
        else p) := by
  rw [set_status_update_eq db uid subj chap comp v r rest h0 hv]
  simp only [progress_rows_for] at h0 ⊢
  rw [filter_map_comm _ _ (matches_key_patch uid subj chap comp r.id v db.clock), h0]

theorem set_status_twice_lemma (db : DB) (uid : Nat) (subj chap comp v : String)
    (h : (progress_rows_for db uid subj chap comp).length ≤ 1) :
    current_status
      (set_status (set_status db uid subj chap comp v) uid subj chap comp v)
      uid subj chap comp = v ∧
    (progress_rows_for
      (set_status (set_status db uid subj chap comp v) uid subj chap comp v)
      uid subj chap comp).length =
      (if progress_rows_for db uid subj chap comp = [] ∧ v = "Non fait" then 0
       else 1) := by
  by_cases hveq : v = current_status db uid subj chap comp
  · have h1 := set_status_noop db uid subj chap comp v hveq
    simp only [h1]
    refine ⟨hveq.symm, ?_⟩
    cases hrows : progress_rows_for db uid subj chap comp with
    | nil =>
      have hv : v = "Non fait" := by rw [hveq]; simp [current_status, hrows]
      simp [hrows, hv]
    | cons r rest =>
      have hr : rest = [] := by
        rw [hrows] at h
        simp only [List.length_cons] at h
        exact List.length_eq_zero.mp (by omega)
      subst hr
      simp [hrows]
  · cases hrows : progress_rows_for db uid subj chap comp with
    | nil =>
      have hvne : v ≠ "Non fait" := by
        intro hc
        exact hveq (by rw [hc]; simp [current_status, hrows])
      have hrows1 := rows_for_insert db uid subj chap comp v hrows hvne
      have hcur1 : current_status (set_status db uid subj chap comp v)
          uid subj chap comp = v := by
        simp [current_status, hrows1]
      rw [set_status_noop _ uid subj chap comp v hcur1.symm]
      refine ⟨hcur1, ?_⟩
      rw [hrows1]
      simp [hrows, hvne]
    | cons r rest =>
      have hr : rest = [] := by
        rw [hrows] at h
        simp only [List.length_cons] at h
        exact List.length_eq_zero.mp (by omega)
      subst hr
      have hvr : v ≠ r.status := by
        intro hc
        exact hveq (by rw [hc]; simp [current_status, hrows])
      have hrows1 : progress_rows_for (set_status db uid subj chap comp v)
          uid subj chap comp =
          [{ r with status := v, updated_at := db.clock }] := by
        have := rows_for_update db uid subj chap comp v r [] hrows hvr
        simpa using this
      have hcur1 : current_status (set_status db uid subj chap comp v)
          uid subj chap comp = v := by
        simp [current_status, hrows1]
      rw [set_status_noop _ uid subj chap comp v hcur1.symm]
      refine ⟨hcur1, ?_⟩
      rw [hrows1]
      simp [hrows]

/-- Claim C1 (amended): set_status writes only when the new status differs
from the current stored-or-default status; then it updates the single
existing row in place (same id, new status and timestamp) or inserts a new
row when none exists, and it is a no-op when the new status equals the
current one.  Calling it twice with the same value leaves the key reading
that value, with exactly one row unless the value is the default on a
never-written key, which leaves zero rows. -/
theorem set_status_upsert (db : DB) (uid : Nat) (subj chap comp v : String)
    (h : (progress_rows_for db uid subj chap comp).length ≤ 1) :
    (progress_rows_for db uid subj chap comp = [] → v ≠ "Non fait" →
      progress_rows_for (set_status db uid subj chap comp v) uid subj chap
        comp = [⟨db.nextProgressId, uid, subj, chap, comp, v, db.clock⟩]) ∧
    (∀ r, progress_rows_for db uid subj chap comp = [r] → v ≠ r.status →
      progress_rows_for (set_status db uid subj chap comp v) uid subj chap
        comp = [{ r with status := v, updated_at := db.clock }]) ∧
    (v = current_status db uid subj chap comp →
      set_status db uid subj chap comp v = db) ∧
    current_status
      (set_status (set_status db uid subj chap comp v) uid subj chap comp v)
      uid subj chap comp = v ∧
    (progress_rows_for
      (set_status (set_status db uid subj chap comp v) uid subj chap comp v)
      uid subj chap comp).length =
      (if progress_rows_for db uid subj chap comp = [] ∧ v = "Non fait" then 0
       else 1) := by
  refine ⟨?_, ?_, set_status_noop db uid subj chap comp v, ?_, ?_⟩
  · intro h0 hv
    exact rows_for_insert db uid subj chap comp v h0 hv
  · intro r h0 hv
    have := rows_for_update db uid subj chap comp v r [] h0 hv
    simpa using this
  · exact (set_status_twice_lemma db uid subj chap comp v h).1
  · exact (set_status_twice_lemma db uid subj chap comp v h).2

theorem set_status_upsert_witness :
    (progress_rows_for emptyDB 1 ("M") ("A") ("Cours")).length ≤ 1 ∧
    progress_rows_for (set_status emptyDB 1 ("M") ("A") ("Cours") ("Fait"))
      1 ("M") ("A") ("Cours") = [⟨1, 1, "M", "A", "Cours", "Fait", 0⟩] ∧
    current_status
      (set_status (set_status emptyDB 1 ("M") ("A") ("Cours") ("Fait"))
        1 ("M") ("A") ("Cours") ("Fait")) 1 ("M") ("A") ("Cours") = "Fait" :=
  ⟨by decide,
   (set_status_upsert emptyDB 1 ("M") ("A") ("Cours") ("Fait")
     (by decide)).1 rfl (by decide),
   (set_status_upsert emptyDB 1 ("M") ("A") ("Cours") ("Fait")
     (by decide)).2.2.2.1⟩

/-- Claim C1 counterexample: setting the default value on a never-written
key performs no insert at all, so two identical calls leave zero rows for
the key, not one. -/
theorem set_status_upsert_counterexample :
    set_status emptyDB 1 ("Mathématiques") ("Algèbre Linéaire") ("Cours")
      ("Non fait") = emptyDB ∧
    ¬ ((progress_rows_for
        (set_status
          (set_status emptyDB 1 ("Mathématiques") ("Algèbre Linéaire")
            ("Cours") ("Non fait"))
          1 ("Mathématiques") ("Algèbre Linéaire") ("Cours") ("Non fait"))
        1 ("Mathématiques") ("Algèbre Linéaire") ("Cours")).length = 1) := by
  constructor
  · decide
  · decide

/-- Claim C2: a set_status call whose new value differs from the current
stored-or-default status appends exactly one audit row for that user, with
action UPDATE_PROGRESS and a detail string naming the triple and the new
status; a call with an equal value appends nothing. -/
theorem set_status_audit (db : DB) (uid : Nat) (subj chap comp v : String) :
    (v ≠ current_status db uid subj chap comp →
      (set_status db uid subj chap comp v).audit_logs = db.audit_logs ++
        [⟨db.nextAuditId, uid, "UPDATE_PROGRESS",
          subj ++ " > " ++ chap ++ " > " ++ comp ++ " : " ++ v,
          db.clock + 1⟩]) ∧
    (v = current_status db uid subj chap comp →
      (set_status db uid subj chap comp v).audit_logs = db.audit_logs) := by
  constructor
  · intro hv
    cases hrows : progress_rows_for db uid subj chap comp with
    | nil =>
      have hcur : current_status db uid subj chap comp = "Non fait" := by
        simp [current_status, hrows]
      rw [set_status_insert_eq db uid subj chap comp v hrows
        (hcur ▸ hv)]
    | cons r rest =>
      have hcur : current_status db uid subj chap comp = r.status := by
        simp [current_status, hrows]
      rw [set_status_update_eq db uid subj chap comp v r rest hrows
        (hcur ▸ hv)]
  · intro hv
    rw [set_status_noop db uid subj chap comp v hv]

theorem set_status_audit_witness :
    (("Fait" : String) ≠ current_status emptyDB 1 ("M") ("A") ("Cours")) ∧
    (set_status emptyDB 1 ("M") ("A") ("Cours") ("Fait")).audit_logs =
      emptyDB.audit_logs ++
      [⟨1, 1, "UPDATE_PROGRESS",
        "M" ++ " > " ++ "A" ++ " > " ++ "Cours" ++ " : " ++ "Fait", 1⟩] :=
  ⟨by decide,
   (set_status_audit emptyDB 1 ("M") ("A") ("Cours") ("Fait")).1 (by decide)⟩

/-- Claim C3: the status read returns the stored status when a row for the
key exists, and the default when none exists. -/
theorem current_status_spec (db : DB) (uid : Nat) (subj chap comp : String) :
    (progress_rows_for db uid subj chap comp = [] →
      current_status db uid subj chap comp = "Non fait") ∧
    (∀ r, progress_rows_for db uid subj chap comp = [r] →
      current_status db uid subj chap comp = r.status) := by
  constructor
  · intro h0
    simp [current_status, h0]
  · intro r h0
    simp [current_status, h0]

theorem current_status_spec_witness :
    current_status emptyDB 1 ("M") ("A") ("Cours") = "Non fait" ∧
    current_status oneFaitDB 1 ("Mathématiques") ("Algèbre Linéaire")
      ("Cours") = "Fait" :=
  ⟨(current_status_spec emptyDB 1 ("M") ("A") ("Cours")).1 rfl,
   (current_status_spec oneFaitDB 1 ("Mathématiques") ("Algèbre Linéaire")
     ("Cours")).2 ⟨1, 1, "Mathématiques", "Algèbre Linéaire", "Cours",
       "Fait", 0⟩ (by decide)⟩

/-- Claim C4: the dashboard rate is the number of completed rows of the
user over the fixed catalog total (27 here) scaled to 0-100, is 0 by
definition when the total is 0, and lands within 0.1 of 33.3 for 9
completed rows out of 27. -/
theorem global_rate_spec (db : DB) (uid : Nat) :
    total_ops = 27 ∧
    global_rate db uid = (completed_tasks db uid : ℚ) / 27 * 100 ∧
    (∀ c : Nat, rate_formula c 0 = 0) ∧
    (completed_tasks db uid = 9 →
      |global_rate db uid - (33.3 : ℚ)| ≤ 1 / 10) := by
  have ht : total_ops = 27 := by decide
  refine ⟨ht, ?_, ?_, ?_⟩
  · simp only [global_rate, rate_formula, ht]
    norm_num
  · intro c
    simp [rate_formula]
  · intro hc
    simp only [global_rate, rate_formula, ht, hc]
    norm_num [abs_le]

theorem global_rate_spec_witness :
    completed_tasks nineFaitDB 1 = 9 ∧
    |global_rate nineFaitDB 1 - (33.3 : ℚ)| ≤ 1 / 10 :=
  ⟨by decide, (global_rate_spec nineFaitDB 1).2.2.2 (by decide)⟩

theorem username_filter_nil (l : List UserRow) (u : String)
    (h : ∀ r ∈ l, r.username ≠ u) :
    l.filter (fun r => decide (r.username = u)) = [] :=
  List.filter_eq_nil_iff.mpr (by simpa using h)

theorem username_any_true_iff (l : List UserRow) (u : String) :
    l.any (fun r => decide (r.username = u)) = true ↔
      ∃ r ∈ l, r.username = u := by
  simp [List.any_eq_true]

theorem create_user_of_exists (db : DB) (salt : Nat) (u p role : String)
    (h : ∃ r ∈ db.users, r.username = u) :
    create_user db salt u p role = (false, db) := by
  rw [create_user, if_pos ((username_any_true_iff db.users u).mpr h)]

theorem create_user_of_not_exists (db : DB) (salt : Nat) (u p role : String)
    (h : ¬ ∃ r ∈ db.users, r.username = u) :
    create_user db salt u p role = (true, created_db db salt u p role) := by
  rw [create_user,
    if_neg (fun hc => h ((username_any_true_iff db.users u).mp hc))]
  rfl

theorem username_count_pos (db : DB) (u : String)
    (h : ∃ r ∈ db.users, r.username = u) : 1 ≤ username_count db u := by
  obtain ⟨r, hr, hru⟩ := h
  have hmem : r ∈ db.users.filter (fun x => decide (x.username = u)) :=
    List.mem_filter.mpr ⟨hr, by simpa using hru⟩
  have := List.length_pos.mpr (List.ne_nil_of_mem hmem)
  simpa [username_count] using this

theorem username_count_zero (db : DB) (u : String)
    (h : ¬ ∃ r ∈ db.users, r.username = u) : username_count db u = 0 := by
  have : db.users.filter (fun x => decide (x.username = u)) = [] :=
    username_filter_nil db.users u (fun r hr hru => h ⟨r, hr, hru⟩)
  simp [username_count, this]

theorem username_count_created (db : DB) (salt : Nat) (u p role : String) :
    username_count (created_db db salt u p role) u =
      username_count db u + 1 := by
  simp [username_count, created_db, created_row, List.filter_append]

/-- Claim C5: with the same username, the second of two create_user calls
fails, writes nothing, and exactly one user row with that username remains
(the users table invariantly holds at most one row per username). -/
theorem create_user_duplicate (db : DB) (s1 s2 : Nat)
    (u p1 p2 r1 r2 : String) (h : username_count db u ≤ 1) :
    (create_user (create_user db s1 u p1 r1).2 s2 u p2 r2).1 = false ∧
    (create_user (create_user db s1 u p1 r1).2 s2 u p2 r2).2 =
      (create_user db s1 u p1 r1).2 ∧
    username_count (create_user (create_user db s1 u p1 r1).2 s2 u p2 r2).2
      u = 1 := by
  by_cases hex : ∃ r ∈ db.users, r.username = u
  · rw [create_user_of_exists db s1 u p1 r1 hex]
    rw [create_user_of_exists db s2 u p2 r2 hex]
    exact ⟨rfl, rfl, le_antisymm h (username_count_pos db u hex)⟩
  · rw [create_user_of_not_exists db s1 u p1 r1 hex]
    have hex1 : ∃ r ∈ (created_db db s1 u p1 r1).users, r.username = u :=
      ⟨created_row db s1 u p1 r1, by simp [created_db], rfl⟩
    rw [create_user_of_exists (created_db db s1 u p1 r1) s2 u p2 r2 hex1]
    refine ⟨rfl, rfl, ?_⟩
    rw [username_count_created, username_count_zero db u hex]

theorem create_user_duplicate_witness :
    username_count emptyDB ("bob") ≤ 1 ∧
    (create_user (create_user emptyDB 4 ("bob") ("pw1") ("student")).2
      5 ("bob") ("pw2") ("admin")).1 = false ∧
    username_count
      (create_user (create_user emptyDB 4 ("bob") ("pw1") ("student")).2
        5 ("bob") ("pw2") ("admin")).2 ("bob") = 1 :=
  ⟨by decide,
   (create_user_duplicate emptyDB 4 5 ("bob") ("pw1") ("pw2") ("student")
     ("admin") (by decide)).1,
   (create_user_duplicate emptyDB 4 5 ("bob") ("pw1") ("pw2") ("student")
     ("admin") (by decide)).2.2⟩

/-- Claim C6: a successful create_user immediately followed by login_user
with the same credentials yields the user record with that username and
role. -/
theorem create_then_authenticate (db : DB) (salt : Nat) (u p role : String)
    (h : ∀ r ∈ db.users, r.username ≠ u) :
    (create_user db salt u p role).1 = true ∧
    login_user (create_user db salt u p role).2 u p =
      some ⟨db.nextUserId, u, role⟩ := by
  have hex : ¬ ∃ r ∈ db.users, r.username = u := by
    rintro ⟨r, hr, hru⟩
    exact h r hr hru
  rw [create_user_of_not_exists db salt u p role hex]
  refine ⟨rfl, ?_⟩
  have hnil : db.users.filter (fun r => decide (r.username = u)) = [] :=
    username_filter_nil db.users u h
  simp only [login_user, created_db]
  rw [List.filter_append, hnil]
  simp [created_row, pbkdf2_sha256_verify, pbkdf2_sha256_hash]

theorem create_then_authenticate_witness :
    (∀ r ∈ emptyDB.users, r.username ≠ "bob") ∧
    (create_user emptyDB 5 ("bob") ("pw") ("student")).1 = true ∧
    login_user (create_user emptyDB 5 ("bob") ("pw") ("student")).2
      ("bob") ("pw") = some ⟨1, "bob", "student"⟩ :=
  ⟨by decide,
   (create_then_authenticate emptyDB 5 ("bob") ("pw") ("student")
     (by decide)).1,
   (create_then_authenticate emptyDB 5 ("bob") ("pw") ("student")
     (by decide)).2⟩

/-- Claim C7: login with a wrong password for an existing user and login
with an unknown username both return the same failure value None. -/
theorem login_failure_indistinguishable (db : DB) (u1 p1 u2 p2 : String)
    (_h1 : ∃ r ∈ db.users, r.username = u1)
    (h2 : ∀ r ∈ db.users, r.username = u1 →
      pbkdf2_sha256_verify p1 r.password = false)
    (h3 : ∀ r ∈ db.users, r.username ≠ u2) :
    login_user db u1 p1 = none ∧ login_user db u2 p2 = none ∧
    login_user db u1 p1 = login_user db u2 p2 := by
  have hl2 : login_user db u2 p2 = none := by
    simp only [login_user]
    rw [username_filter_nil db.users u2 h3]
  have hl1 : login_user db u1 p1 = none := by
    simp only [login_user]
    cases hf : db.users.filter (fun r => decide (r.username = u1)) with
    | nil => rfl
    | cons r rest =>
      have hmem : r ∈ db.users.filter (fun x => decide (x.username = u1)) := by
        rw [hf]
        exact List.mem_cons_self r rest
      have hr := List.mem_filter.mp hmem
      have hv := h2 r hr.1 (by simpa using hr.2)
      simp [hf, hv]
  exact ⟨hl1, hl2, hl1.trans hl2.symm⟩

theorem login_failure_indistinguishable_witness :
    (∃ r ∈ aliceDB.users, r.username = "alice") ∧
    login_user aliceDB ("alice") ("wrong") = none ∧
    login_user aliceDB ("alice") ("wrong") =
      login_user aliceDB ("bob") ("secret") :=
  ⟨by decide,
   (login_failure_indistinguishable aliceDB ("alice") ("wrong") ("bob")
     ("secret") (by decide) (by decide) (by decide)).1,
   (login_failure_indistinguishable aliceDB ("alice") ("wrong") ("bob")
     ("secret") (by decide) (by decide) (by decide)).2.2⟩

/-- Claim C8: initialisation inserts exactly one default admin row, with
the hard-coded username and the hard-coded password stored hashed, when and
only when the users table has zero rows; otherwise it changes nothing. -/
theorem init_db_seeds_iff_empty (db : DB) (salt : Nat) :
    (db.users = [] →
      (init_db db salt).users =
        [⟨db.nextUserId, DEFAULT_ADMIN_USER,
          pbkdf2_sha256_hash salt DEFAULT_ADMIN_PASS, "admin", db.clock⟩]) ∧
    (db.users ≠ [] → init_db db salt = db) := by
  constructor
  · intro h
    simp [init_db, h]
  · intro h
    have hlen : ¬ (db.users.length = 0) :=
      fun hc => h (List.length_eq_zero.mp hc)
    simp [init_db, hlen]

theorem init_db_seeds_iff_empty_witness :
    emptyDB.users = [] ∧
    (init_db emptyDB 7).users =
      [⟨1, DEFAULT_ADMIN_USER, pbkdf2_sha256_hash 7 DEFAULT_ADMIN_PASS,
        "admin", 0⟩] :=
  ⟨rfl, (init_db_seeds_iff_empty emptyDB 7).1 rfl⟩

/-- Claim C9: run_query closes its connection on both success paths, but
when execute raises, the exception propagates with no close at all - the
code has no try/finally, so the error path leaks the connection. -/
theorem run_query_connection_events :
    DbEvent.close ∈ run_query_events false true ∧
    DbEvent.close ∈ run_query_events false false ∧
    DbEvent.close ∉ run_query_events true true ∧
    DbEvent.close ∉ run_query_events true false := by decide

/-- Claim C10: an unrecognised stored status makes the selectbox index
fall back to 0, whose option is the default status. -/
theorem current_index_fallback (s : String) (h : s ∉ STATUS_OPTS) :
    current_index s = 0 ∧
    STATUS_OPTS.getD (current_index s) ("") = "Non fait" := by
  have h0 : current_index s = 0 := by simp [current_index, h]
  exact ⟨h0, by rw [h0]; decide⟩

theorem current_index_fallback_witness :
    (("corrompu" : String) ∉ STATUS_OPTS) ∧
    current_index ("corrompu") = 0 ∧
    STATUS_OPTS.getD (current_index ("corrompu")) ("") = "Non fait" :=
  ⟨by decide,
   (current_index_fallback ("corrompu") (by decide)).1,
   (current_index_fallback ("corrompu") (by decide)).2⟩
